import Mathlib

/-!
Verification development for the busybox debug HTTP server
(`handler/server.go`).  The request-interception pipeline (`ServeHTTP`),
the two endpoint handlers (`healthCheck`, `mainHandler`) and the response
writer (`writeResponse`) are shallowly embedded as pure Lean functions;
the HTTP layer (status, headers, body) and the observable side effects
(CORS header writes, span open/close, log records, dispatch) are made
explicit as a returned response value plus a trace of events.
-/

namespace Busybox

/-- JSON values, the model of the dynamic data `encoding/json` works with
(`map[string]any` decodes into the `obj` shape; arrays, strings, numbers,
booleans and null cover the rest).  Numbers are modelled as integers:
no claim depends on fractional values. -/
inductive Json where
  | null : Json
  | bool (b : Bool) : Json
  | num (n : Int) : Json
  | str (s : String) : Json
  | arr (elems : List Json) : Json
  | obj (fields : List (String × Json)) : Json

/-- Values handed to `writeResponse` (`v any` in Go).  Every value the two
handlers build is JSON-representable; Go's `any` also admits values
`json.Marshal` rejects (functions, channels, ...), modelled by
`unsupported` carrying the type description that appears in the error. -/
inductive GoVal where
  | json (j : Json) : GoVal
  | unsupported (typeDesc : String) : GoVal

/-- Result of `json.Marshal`: the serialized value, or the error message
(`json: unsupported type: ...`) for values JSON cannot represent.  The
serialized body is kept as the `Json` value itself rather than a byte
string; serialization order of object keys is irrelevant to every claim. -/
def marshal : GoVal → Except String Json
  | .json j => .ok j
  | .unsupported d => .error ("json: unsupported type: " ++ d)

/-- Request body as seen by `json.NewDecoder(r.Body).Decode`: empty
(`Decode` reports `io.EOF`), syntactically invalid JSON (a syntax error;
the exact character position in Go's message is abstracted away), or a
well-formed first JSON value. -/
inductive Body where
  | empty : Body
  | malformed : Body
  | wellFormed (j : Json) : Body

/-- Behaviour of `decoder.Decode(&bodyData)` for `bodyData map[string]any`
(mainHandler, line 225-227): an empty stream yields `io.EOF`; invalid
syntax yields a syntax error; a JSON object decodes into the map; the JSON
literal `null` is accepted and leaves the map `nil` (Go's decoder treats
`null` as a no-op for a map target); any other well-formed value (array,
string, number, boolean) fails with an unmarshal-type error. -/
def decodeBody : Body → Except String Json
  | .empty => .error "EOF"
  | .malformed => .error "invalid character looking for beginning of value"
  | .wellFormed (.obj fields) => .ok (.obj fields)
  | .wellFormed .null => .ok .null
  | .wellFormed (.arr _) =>
      .error "json: cannot unmarshal array into Go value of type map[string]interface"
  | .wellFormed (.str _) =>
      .error "json: cannot unmarshal string into Go value of type map[string]interface"
  | .wellFormed (.num _) =>
      .error "json: cannot unmarshal number into Go value of type map[string]interface"
  | .wellFormed (.bool _) =>
      .error "json: cannot unmarshal bool into Go value of type map[string]interface"

/-- An inbound HTTP request, restricted to the fields `server.go` reads.
`headers` maps canonical header names (as Go's `net/http` stores them) to
all values under that name; `path` and `rawQuery` mirror `r.URL.Path` and
`r.URL.RawQuery`. -/
structure Request where
  method : String
  path : String
  rawQuery : String
  host : String
  remoteAddr : String
  headers : List (String × List String)
  body : Body

/-- Go's `r.Header.Get(key)`: the first value stored under the canonical
key, or the empty string when the header is absent. -/
def headerGet (headers : List (String × List String)) (key : String) : String :=
  match headers.lookup key with
  | some (v :: _) => v
  | _ => ""

/-- Go's `r.UserAgent()`, which is `r.Header.Get("User-Agent")`. -/
def Request.userAgent (r : Request) : String :=
  headerGet r.headers "User-Agent"

/-- Response body: nothing written, a marshalled JSON value, plain text
(the marshal-failure diagnostic, chi's not-found/method-not-allowed
bodies), or the output of an externally mounted handler
(`promhttp.Handler()`, `middleware.Profiler()`), which is out of scope. -/
inductive RespBody where
  | empty : RespBody
  | jsonBody (j : Json) : RespBody
  | text (s : String) : RespBody
  | delegated : RespBody

/-- An HTTP response as accumulated on the `http.ResponseWriter`.
`explicitStatus` is the argument of the (at most one) `WriteHeader` call;
`none` means the handler only called `Write`, in which case Go sends an
implicit `200 OK`. -/
structure Response where
  explicitStatus : Option Nat
  headers : List (String × String)
  body : RespBody

/-- Effective status code: the explicitly written one, else the implicit
200 that `net/http` sends on the first `Write` without a `WriteHeader`. -/
def Response.status (resp : Response) : Nat :=
  resp.explicitStatus.getD 200

/-- Observable side effects of one request in pipeline order: the CORS
header block, the preflight short-circuit write, span open / tag / close
(`Start`, `SetAttributes`, the deferred `End`), the structured log record,
the hand-off to the chi router, and the run of the matched handler. -/
inductive Event where
  | corsHeaders : Event
  | preflight : Event
  | spanStart (name : String) : Event
  | spanTag (key value : String) : Event
  | logRecord (method path query : String) : Event
  | dispatch : Event
  | handlerRun (name : String) : Event
  | spanEnd : Event

def Event.isCors : Event → Bool
  | .corsHeaders => true
  | _ => false

def Event.isSpanStart : Event → Bool
  | .spanStart _ => true
  | _ => false

def Event.isLog : Event → Bool
  | .logRecord _ _ _ => true
  | _ => false

def Event.isDispatch : Event → Bool
  | .dispatch => true
  | _ => false

def Event.isHandlerRun : Event → Bool
  | .handlerRun _ => true
  | _ => false

def Event.isSpanEnd : Event → Bool
  | .spanEnd => true
  | _ => false

/-- Every `p`-event of the trace happens strictly before every `q`-event:
from the first `q`-event on, no `p`-event occurs.  Intended for disjoint
`p` and `q` (distinct constructors). -/
def allBefore (p q : Event → Bool) (events : List Event) : Bool :=
  (events.dropWhile (fun e => !(q e))).all (fun e => !(p e))

/-- An open trace span: name (the string passed to `Tracer.Start`) and
the string attributes set on it. -/
structure Span where
  name : String
  tags : List (String × String)

/-- The per-request context values attached by `ServeHTTP`
(`context.WithValue` chain, lines 180-183). -/
structure RequestContext where
  host : String
  path : String
  remoteAddr : String
  forwardedFor : String

/-- The `headersSep` constant. -/
def headersSep : String := ", "

/-- The `allowedHeaders` list, in source order. -/
def allowedHeaders : List String :=
  ["Accept", "Content-Type", "Content-Length", "Cookie", "Accept-Encoding",
   "Authorization", "X-CSRF-Token", "X-Requested-With", "X-Forwarded-For",
   "CF-Connecting-IP", "CF-Real-IP"]

/-- The `allowedMethods` list, in source order. -/
def allowedMethods : List String :=
  ["OPTIONS", "GET", "PUT", "PATCH", "POST", "DELETE"]

/-- Process-level state the handlers read: the `AppVersion` build
variable, the `runDate` start instant (its Unix seconds), whether
`h.tracer != nil` (a Jaeger collector address was configured), and whether
profiling is enabled (`enable_profiling`).  The two `time.Now()` calls in
`healthCheck` are modelled as the clock values observed at each call:
`nowUnix` for `time.Now().Unix()` and `nowRFC1123` for the rendering
`time.Now().Format(time.RFC1123)` at the second call — the stdlib's
zone-dependent formatting itself is outside the repository. -/
structure Env where
  appVersion : String
  runDateUnix : Int
  tracerPresent : Bool
  profilingEnabled : Bool
  nowUnix : Int
  nowRFC1123 : String

/-- Translation of `writeResponse(w, v)`: set the Content-Type header,
marshal `v`; on failure write the plain-text diagnostic with no
`WriteHeader` call (so the status defaults to 200); on success write
status 200 and the JSON body. -/
def writeResponse (v : GoVal) : Response :=
  let contentType := [("Content-Type", "application/json; charset=utf-8")]
  match marshal v with
  | .error e =>
      { explicitStatus := none, headers := contentType,
        body := .text ("Cannot marshal response: " ++ e) }
  | .ok j =>
      { explicitStatus := some 200, headers := contentType,
        body := .jsonBody j }

/-- The map built by `healthCheck` (lines 198-206): uptime in whole
seconds under the key `alive`, the build version, `healthy` always true,
and the RFC1123-formatted current time. -/
def healthCheckResult (env : Env) : List (String × Json) :=
  [("alive", .num (env.nowUnix - env.runDateUnix)),
   ("version", .str env.appVersion),
   ("healthy", .bool true),
   ("timestamp", .str env.nowRFC1123)]

/-- Marshalling of `r.URL` (`*url.URL` has no custom JSON marshaller, so
it serializes as a struct); only the two populated fields the server ever
reads are modelled, the rest of the struct is irrelevant to every claim. -/
def Request.urlJson (r : Request) : Json :=
  .obj [("Path", .str r.path), ("RawQuery", .str r.rawQuery)]

/-- One entry of the echoed header list: the header name together with
all of its values (`map[string]any with name/values`, lines 213-216). -/
def echoHeader (nv : String × List String) : Json :=
  .obj [("name", .str nv.1), ("values", .arr (nv.2.map .str))]

/-- The map built by `mainHandler` (lines 208-236): every header name
with all of its values, the URL, user agent and remote address; for POST
the decoded body under `body` on success and the decoder's error message
under `body_decoding_error` on failure.  A request with no headers leaves
the Go slice `nil`, which marshals to JSON `null`. -/
def mainHandlerResult (r : Request) : List (String × Json) :=
  let headerObjs := r.headers.map echoHeader
  let headersJson := if r.headers.isEmpty then Json.null else .arr headerObjs
  let base := [("headers", headersJson),
               ("url", r.urlJson),
               ("user_agent", .str r.userAgent),
               ("remote_addr", .str r.remoteAddr)]
  if r.method = "POST" then
    match decodeBody r.body with
    | .error e => base ++ [("body_decoding_error", .str e)]
    | .ok j => base ++ [("body", j)]
  else
    base

/-- Chi's default not-found response: 404 with a plain-text body. -/
def notFoundResponse : Response :=
  { explicitStatus := some 404, headers := [], body := .text "404 page not found" }

/-- Chi's default response when the path matches but the method does not. -/
def methodNotAllowedResponse : Response :=
  { explicitStatus := some 405, headers := [], body := .empty }

/-- A response produced by an externally mounted handler
(`promhttp.Handler()` on `/metrics`, `middleware.Profiler()` under
`/debug/pprof`); its contents are out of scope. -/
def delegatedResponse : Response :=
  { explicitStatus := none, headers := [], body := .delegated }

/-- The chi router wired in `Run` (lines 127-142): `/debug/pprof` mounted
when profiling is enabled, `/metrics` mounted, `GET /health`, and
`GET`/`POST` on `/debug` (the sub-route `"/"` matches both `/debug` and
`/debug/`).  Returns the response together with the handler-run event. -/
def routerServe (env : Env) (r : Request) : Response × List Event :=
  if r.path.startsWith "/debug/pprof" && env.profilingEnabled then
    (delegatedResponse, [.handlerRun "pprof"])
  else if r.path = "/metrics" then
    (delegatedResponse, [.handlerRun "promhttp"])
  else if r.path = "/health" then
    if r.method = "GET" then
      (writeResponse (.json (.obj (healthCheckResult env))), [.handlerRun "healthCheck"])
    else
      (methodNotAllowedResponse, [])
  else if r.path = "/debug" ∨ r.path = "/debug/" then
    if r.method = "GET" ∨ r.method = "POST" then
      (writeResponse (.json (.obj (mainHandlerResult r))), [.handlerRun "mainHandler"])
    else
      (methodNotAllowedResponse, [])
  else
    (notFoundResponse, [])

/-- Result of one pass through `ServeHTTP`: the response, the event
trace, the span opened for the request (if any), and the context values
attached to the request context (absent when the preflight branch
returned early). -/
structure ServeResult where
  response : Response
  events : List Event
  span : Option Span
  requestContext : Option RequestContext

/-- Translation of `ServeHTTP` (lines 163-196).  With an `Origin` header
the four CORS headers are set; an `OPTIONS` request is answered with a
bare 200 and nothing else runs; otherwise the context values are
attached, a span is opened when the tracer is present (named by
`r.URL.Path` verbatim, tagged with host and method, ended after the
router returns thanks to `defer`), one log record is emitted, and the
router dispatches to the endpoint handler. -/
def serveHTTP (env : Env) (r : Request) : ServeResult :=
  let origin := headerGet r.headers "Origin"
  let corsHeaders : List (String × String) :=
    if origin ≠ "" then
      [("Access-Control-Allow-Credentials", "true"),
       ("Access-Control-Allow-Origin", origin),
       ("Access-Control-Allow-Methods", String.intercalate headersSep allowedMethods),
       ("Access-Control-Allow-Headers", String.intercalate headersSep allowedHeaders)]
    else []
  let corsEvents : List Event := if origin ≠ "" then [.corsHeaders] else []
  if r.method = "OPTIONS" then
    { response := { explicitStatus := some 200, headers := corsHeaders, body := .empty },
      events := corsEvents ++ [.preflight],
      span := none,
      requestContext := none }
  else
    let ctx : RequestContext :=
      { host := r.host, path := r.path, remoteAddr := r.remoteAddr,
        forwardedFor := headerGet r.headers "X-Forwarded-For" }
    let span : Option Span :=
      if env.tracerPresent then
        some { name := r.path, tags := [("host", r.host), ("method", r.method)] }
      else none
    let spanOpenEvents : List Event :=
      if env.tracerPresent then
        [.spanStart r.path, .spanTag "host" r.host, .spanTag "method" r.method]
      else []
    let spanCloseEvents : List Event :=
      if env.tracerPresent then [.spanEnd] else []
    let routed := routerServe env r
    { response := { routed.1 with headers := corsHeaders ++ routed.1.headers },
      events := corsEvents ++ spanOpenEvents
        ++ [.logRecord r.method r.path r.rawQuery]
        ++ [.dispatch] ++ routed.2 ++ spanCloseEvents,
      span := span,
      requestContext := some ctx }

/-- A baseline process state: no tracer, no profiling, version unset,
process started at Unix second 0, clock at Unix second 5. -/
def env0 : Env :=
  { appVersion := "", runDateUnix := 0, tracerPresent := false,
    profilingEnabled := false, nowUnix := 5,
    nowRFC1123 := "Sat, 11 Oct 2025 00:00:00 UTC" }

/-- The baseline process state with a Jaeger tracer configured. -/
def envTrace : Env := { env0 with tracerPresent := true }

/-- A plain `GET /health` request. -/
def reqHealthGet : Request :=
  { method := "GET", path := "/health", rawQuery := "", host := "localhost:8081",
    remoteAddr := "127.0.0.1:50000", headers := [], body := .empty }

/-- An `OPTIONS` request that carries no `Origin` header. -/
def reqOptionsNoOrigin : Request :=
  { method := "OPTIONS", path := "/debug", rawQuery := "", host := "localhost:8081",
    remoteAddr := "127.0.0.1:50001", headers := [], body := .empty }

/-- An `OPTIONS` preflight carrying an `Origin` header. -/
def reqOptionsOrigin : Request :=
  { method := "OPTIONS", path := "/health", rawQuery := "", host := "localhost:8081",
    remoteAddr := "127.0.0.1:50002",
    headers := [("Origin", ["http://app.example"])], body := .empty }

/-- A `POST /debug` whose body is not valid JSON. -/
def reqDebugPostBad : Request :=
  { method := "POST", path := "/debug", rawQuery := "", host := "localhost:8081",
    remoteAddr := "127.0.0.1:50003",
    headers := [("User-Agent", ["curl/8.0"])], body := .malformed }

/-- A `GET /debug` carrying two values under the same header name. -/
def reqDebugGetMulti : Request :=
  { method := "GET", path := "/debug", rawQuery := "", host := "localhost:8081",
    remoteAddr := "127.0.0.1:50004",
    headers := [("X-Test", ["a", "b"])], body := .empty }

/-- A `POST /debug` whose body is the well-formed JSON literal `null`. -/
def reqDebugPostNull : Request :=
  { method := "POST", path := "/debug", rawQuery := "", host := "localhost:8081",
    remoteAddr := "127.0.0.1:50005", headers := [], body := .wellFormed .null }

/-- A `POST /debug` whose body is a well-formed JSON array. -/
def reqDebugPostArr : Request :=
  { method := "POST", path := "/debug", rawQuery := "", host := "localhost:8081",
    remoteAddr := "127.0.0.1:50006", headers := [],
    body := .wellFormed (.arr [.num 1]) }

/-- A `GET /health` request carrying a body (which the handler must
ignore). -/
def reqHealthGetWithBody : Request :=
  { reqHealthGet with body := .wellFormed (.obj [("k", .num 1)]) }

/-- Every error `decoder.Decode` can report is a non-empty message. -/
theorem decodeBody_error_ne_empty (b : Body) (e : String)
    (h : decodeBody b = .error e) : e ≠ "" := by
  cases b with
  | empty => simp [decodeBody] at h; subst h; decide
  | malformed => simp [decodeBody] at h; subst h; decide
  | wellFormed j =>
      cases j <;> simp [decodeBody] at h <;> (subst h; decide)

/-- The chi router only ever contributes handler-run events to the
trace. -/
theorem routerServe_all_handlerRun (env : Env) (r : Request) :
    (routerServe env r).2.all Event.isHandlerRun = true := by
  unfold routerServe
  repeat' split
  all_goals rfl

/-- No event contributed by the router satisfies a predicate that is
false on handler-run events. -/
theorem routerServe_countP_eq_zero (env : Env) (r : Request)
    (p : Event → Bool) (hp : ∀ s, p (.handlerRun s) = false) :
    (routerServe env r).2.countP p = 0 := by
  rw [List.countP_eq_zero]
  intro a ha
  have h := List.all_eq_true.mp (routerServe_all_handlerRun env r) a ha
  cases a <;> simp_all [Event.isHandlerRun]

/-- Splitting principle for `allBefore`: if the trace splits into a part
with no `q`-event followed by a part with no `p`-event, every `p`-event
is before every `q`-event. -/
theorem allBefore_of_split (p q : Event → Bool) (xs ys : List Event)
    (hq : ∀ e ∈ xs, q e = false) (hp : ∀ e ∈ ys, p e = false) :
    allBefore p q (xs ++ ys) = true := by
  unfold allBefore
  rw [List.dropWhile_append_of_pos (by intro a ha; simp [hq a ha])]
  refine List.all_eq_true.mpr ?_
  intro x hx
  have hxy : x ∈ ys := List.dropWhile_subset _ hx
  simp [hp x hxy]

/-- The joined allowed-methods list, as sent on the wire. -/
theorem allowedMethods_joined :
    String.intercalate headersSep allowedMethods
      = "OPTIONS, GET, PUT, PATCH, POST, DELETE" := rfl

/-- The joined allowed-headers list, as sent on the wire. -/
theorem allowedHeaders_joined :
    String.intercalate headersSep allowedHeaders
      = "Accept, Content-Type, Content-Length, Cookie, Accept-Encoding, Authorization, X-CSRF-Token, X-Requested-With, X-Forwarded-For, CF-Connecting-IP, CF-Real-IP" := rfl

/-- Evaluation fact used to discharge the pprof-mount routing check. -/
theorem health_path_not_pprof : "/health".startsWith "/debug/pprof" = false := rfl

/-- Evaluation fact used to discharge the pprof-mount routing check. -/
theorem debug_path_not_pprof : "/debug".startsWith "/debug/pprof" = false := rfl

/-- Evaluation fact used to discharge the pprof-mount routing check. -/
theorem debug_slash_path_not_pprof : "/debug/".startsWith "/debug/pprof" = false := rfl

/-- C3 counterexample: the uptime field of the health response is keyed
`alive`, not `uptimeSeconds` — the claim's field list does not match the
JSON object the handler builds.  At the baseline state the response body
is the health object, that object has no `uptimeSeconds` field, and the
uptime (in whole seconds since process start) sits under `alive`. -/
theorem health_alive_key_cex :
    (serveHTTP env0 reqHealthGet).response.body
        = RespBody.jsonBody (.obj (healthCheckResult env0)) ∧
    (healthCheckResult env0).lookup "uptimeSeconds" = none ∧
    (healthCheckResult env0).lookup "alive" = some (.num 5) :=
  ⟨rfl, rfl, rfl⟩

/-- C3 (amended): every `GET /health` request succeeds with explicit
status 200 and a JSON object with `healthy = true` unconditionally,
`timestamp` the RFC1123 rendering of the current time, `version` the
build version string, and the whole seconds since process start under
the key `alive` (not `uptimeSeconds`). -/
theorem health_response (env : Env) (r : Request)
    (hm : r.method = "GET") (hp : r.path = "/health") :
    (serveHTTP env r).response.explicitStatus = some 200 ∧
    (serveHTTP env r).response.body
        = RespBody.jsonBody (.obj (healthCheckResult env)) ∧
    (healthCheckResult env).lookup "healthy" = some (.bool true) ∧
    (healthCheckResult env).lookup "timestamp" = some (.str env.nowRFC1123) ∧
    (healthCheckResult env).lookup "version" = some (.str env.appVersion) ∧
    (healthCheckResult env).lookup "alive"
        = some (.num (env.nowUnix - env.runDateUnix)) := by
  obtain ⟨m, p, q, ho, ra, hs, b⟩ := r
  simp only [] at hm hp
  subst hm
  subst hp
  refine ⟨?_, ?_, rfl, rfl, rfl, rfl⟩ <;>
    simp [serveHTTP, routerServe, writeResponse, marshal, health_path_not_pprof]

/-- C3 witness: the amended health theorem applied at the baseline
state and a concrete `GET /health` request. -/
theorem health_response_witness :
    (serveHTTP env0 reqHealthGet).response.explicitStatus = some 200 ∧
    (healthCheckResult env0).lookup "alive"
        = some (.num (env0.nowUnix - env0.runDateUnix)) :=
  ⟨(health_response env0 reqHealthGet rfl rfl).1,
   (health_response env0 reqHealthGet rfl rfl).2.2.2.2.2⟩

/-- C5: the response writer always sets the JSON content type; when
marshalling fails it writes exactly the text `Cannot marshal response: `
followed by the error, with no explicit status (so the status defaults
to 200); when marshalling succeeds it writes explicit status 200 and the
JSON body. -/
theorem writeResponse_contract (v : GoVal) :
    (writeResponse v).headers
        = [("Content-Type", "application/json; charset=utf-8")] ∧
    (∀ e, marshal v = .error e →
       (writeResponse v).explicitStatus = none ∧
       (writeResponse v).status = 200 ∧
       (writeResponse v).body = RespBody.text ("Cannot marshal response: " ++ e)) ∧
    (∀ j, marshal v = .ok j →
       (writeResponse v).explicitStatus = some 200 ∧
       (writeResponse v).body = RespBody.jsonBody j) := by
  cases v <;> simp [writeResponse, marshal, Response.status]

/-- C5 witness: the writer contract applied to a non-marshallable value
and to a marshallable one. -/
theorem writeResponse_contract_witness :
    (writeResponse (.unsupported "chan int")).body
        = RespBody.text "Cannot marshal response: json: unsupported type: chan int" ∧
    (writeResponse (.json .null)).explicitStatus = some 200 :=
  ⟨((writeResponse_contract (.unsupported "chan int")).2.1 _ rfl).2.2,
   ((writeResponse_contract (.json .null)).2.2 .null rfl).1⟩

/-- C9: a `GET /debug` request never has its body parsed — the echo
result is unchanged under any replacement of the body — and the
response object contains neither a `body` nor a `body_decoding_error`
field. -/
theorem get_debug_ignores_body (env : Env) (r : Request) (b : Body)
    (hm : r.method = "GET") (hp : r.path = "/debug" ∨ r.path = "/debug/") :
    (mainHandlerResult r).lookup "body" = none ∧
    (mainHandlerResult r).lookup "body_decoding_error" = none ∧
    mainHandlerResult { r with body := b } = mainHandlerResult r ∧
    (serveHTTP env r).response.body
        = RespBody.jsonBody (.obj (mainHandlerResult r)) := by
  obtain ⟨m, p, q, ho, ra, hs, b'⟩ := r
  simp only [] at hm hp
  subst hm
  refine ⟨?_, ?_, ?_, ?_⟩
  · simp [mainHandlerResult]
  · simp [mainHandlerResult]
  · simp [mainHandlerResult, Request.userAgent, Request.urlJson]
  · rcases hp with hp | hp <;> subst hp <;>
      simp [serveHTTP, routerServe, writeResponse, marshal,
        debug_path_not_pprof, debug_slash_path_not_pprof]

/-- C9 witness: the theorem applied to a concrete `GET /debug` request
carrying a multi-valued header, with the body replaced by malformed
JSON. -/
theorem get_debug_ignores_body_witness :
    (mainHandlerResult reqDebugGetMulti).lookup "body" = none ∧
    mainHandlerResult { reqDebugGetMulti with body := .malformed }
        = mainHandlerResult reqDebugGetMulti :=
  ⟨(get_debug_ignores_body env0 reqDebugGetMulti .malformed rfl (Or.inl rfl)).1,
   (get_debug_ignores_body env0 reqDebugGetMulti .malformed rfl (Or.inl rfl)).2.2.1⟩

/-- C4: when the body of a `POST /debug` request fails to decode, the
request does not fail: the response is still written with status 200 and
the echo object, the decoder's non-empty error message sits under
`body_decoding_error`, there is no `body` field, and the remaining echo
fields (`headers`, `url`, `user_agent`, `remote_addr`) are all present. -/
theorem post_debug_decode_error (env : Env) (r : Request) (e : String)
    (hm : r.method = "POST") (hp : r.path = "/debug" ∨ r.path = "/debug/")
    (hd : decodeBody r.body = .error e) :
    (serveHTTP env r).response.status = 200 ∧
    (serveHTTP env r).response.body
        = RespBody.jsonBody (.obj (mainHandlerResult r)) ∧
    (mainHandlerResult r).lookup "body_decoding_error" = some (.str e) ∧
    e ≠ "" ∧
    (mainHandlerResult r).lookup "body" = none ∧
    ((mainHandlerResult r).lookup "headers").isSome = true ∧
    ((mainHandlerResult r).lookup "url").isSome = true ∧
    ((mainHandlerResult r).lookup "user_agent").isSome = true ∧
    ((mainHandlerResult r).lookup "remote_addr").isSome = true := by
  have hne := decodeBody_error_ne_empty r.body e hd
  obtain ⟨m, p, q, ho, ra, hs, b⟩ := r
  simp only [] at hm hp hd
  subst hm
  refine ⟨?_, ?_, ?_, hne, ?_, ?_, ?_, ?_, ?_⟩
  · rcases hp with hp | hp <;> subst hp <;>
      simp [serveHTTP, routerServe, writeResponse, marshal, Response.status,
        debug_path_not_pprof, debug_slash_path_not_pprof]
  · rcases hp with hp | hp <;> subst hp <;>
      simp [serveHTTP, routerServe, writeResponse, marshal,
        debug_path_not_pprof, debug_slash_path_not_pprof]
  all_goals simp [mainHandlerResult, hd, List.lookup]

/-- C4 witness: the theorem applied to a concrete `POST /debug` request
with a malformed body. -/
theorem post_debug_decode_error_witness :
    (serveHTTP env0 reqDebugPostBad).response.status = 200 ∧
    (mainHandlerResult reqDebugPostBad).lookup "body_decoding_error"
        = some (.str "invalid character looking for beginning of value") ∧
    (mainHandlerResult reqDebugPostBad).lookup "body" = none :=
  ⟨(post_debug_decode_error env0 reqDebugPostBad _ rfl (Or.inl rfl) rfl).1,
   (post_debug_decode_error env0 reqDebugPostBad _ rfl (Or.inl rfl) rfl).2.2.1,
   (post_debug_decode_error env0 reqDebugPostBad _ rfl (Or.inl rfl) rfl).2.2.2.2.1⟩

/-- C6: the debug echo maps every request header name to the complete
sequence of all its values (multi-valued headers are never collapsed)
and also populates the request URL, the user agent and the remote
address. -/
theorem debug_echo_headers (env : Env) (r : Request)
    (hm : r.method = "GET" ∨ r.method = "POST")
    (hp : r.path = "/debug" ∨ r.path = "/debug/") :
    (serveHTTP env r).response.body
        = RespBody.jsonBody (.obj (mainHandlerResult r)) ∧
    (r.headers ≠ [] →
       (mainHandlerResult r).lookup "headers"
         = some (.arr (r.headers.map echoHeader))) ∧
    (∀ name values, (name, values) ∈ r.headers →
       echoHeader (name, values) ∈ r.headers.map echoHeader ∧
       echoHeader (name, values)
         = .obj [("name", .str name), ("values", .arr (values.map .str))]) ∧
    (mainHandlerResult r).lookup "url" = some r.urlJson ∧
    (mainHandlerResult r).lookup "user_agent" = some (.str r.userAgent) ∧
    (mainHandlerResult r).lookup "remote_addr" = some (.str r.remoteAddr) := by
  refine ⟨?_, ?_, ?_, ?_, ?_, ?_⟩
  · rcases hm with hm | hm <;> rcases hp with hp | hp <;>
      obtain ⟨m, p, q, ho, ra, hs, b⟩ := r <;>
      simp only [] at hm hp <;> subst hm <;> subst hp <;>
      simp [serveHTTP, routerServe, writeResponse, marshal,
        debug_path_not_pprof, debug_slash_path_not_pprof]
  · intro hne
    by_cases hm' : r.method = "POST"
    · cases hd : decodeBody r.body <;>
        simp [mainHandlerResult, hne, hm', hd, List.lookup]
    · simp [mainHandlerResult, hne, hm', List.lookup]
  · intro name values hmem
    exact ⟨List.mem_map_of_mem echoHeader hmem, rfl⟩
  all_goals
    by_cases hm' : r.method = "POST"
    · cases hd : decodeBody r.body <;>
        simp [mainHandlerResult, hm', hd, List.lookup]
    · simp [mainHandlerResult, hm', List.lookup]

/-- C6 witness: the theorem applied to a `GET /debug` request carrying
the values `a` and `b` under the one header name `X-Test`; both values
survive in the echoed entry. -/
theorem debug_echo_headers_witness :
    (mainHandlerResult reqDebugGetMulti).lookup "headers"
        = some (.arr [.obj [("name", .str "X-Test"),
                            ("values", .arr [.str "a", .str "b"])]]) ∧
    (mainHandlerResult reqDebugGetMulti).lookup "remote_addr"
        = some (.str "127.0.0.1:50004") :=
  ⟨(debug_echo_headers env0 reqDebugGetMulti (Or.inl rfl) (Or.inl rfl)).2.1
      (by simp [reqDebugGetMulti]),
   (debug_echo_headers env0 reqDebugGetMulti (Or.inl rfl) (Or.inl rfl)).2.2.2.2.2⟩

/-- C10 counterexample: a `POST /debug` whose body is the well-formed,
non-object JSON value `null` does not produce a decode error — the
decoder accepts `null` for a map target — and `null` is echoed under
`body`, contradicting both the universal failure claim and the
only-objects-are-echoed claim. -/
theorem post_null_body_echoed_cex :
    (mainHandlerResult reqDebugPostNull).lookup "body" = some Json.null ∧
    (mainHandlerResult reqDebugPostNull).lookup "body_decoding_error" = none ∧
    (serveHTTP env0 reqDebugPostNull).response.body
        = RespBody.jsonBody (.obj (mainHandlerResult reqDebugPostNull)) :=
  ⟨rfl, rfl, rfl⟩

/-- C10 (amended): for a `POST /debug` whose body is well-formed JSON,
decoding into the object-shaped target fails — yielding a non-empty
`body_decoding_error` and no `body` field — exactly when the value is
neither an object nor `null`; a `null` body decodes successfully and is
echoed as `null` under `body`, and an object body is echoed verbatim. -/
theorem post_nonobject_body_decode (env : Env) (r : Request) (j : Json)
    (hm : r.method = "POST") (hp : r.path = "/debug" ∨ r.path = "/debug/")
    (hb : r.body = .wellFormed j) :
    (serveHTTP env r).response.body
        = RespBody.jsonBody (.obj (mainHandlerResult r)) ∧
    ((∀ fields, j ≠ .obj fields) → j ≠ .null →
       ∃ e, decodeBody r.body = .error e ∧ e ≠ "" ∧
         (mainHandlerResult r).lookup "body_decoding_error" = some (.str e) ∧
         (mainHandlerResult r).lookup "body" = none) ∧
    (j = .null →
       (mainHandlerResult r).lookup "body" = some .null ∧
       (mainHandlerResult r).lookup "body_decoding_error" = none) ∧
    (∀ fields, j = .obj fields →
       (mainHandlerResult r).lookup "body" = some (.obj fields)) := by
  refine ⟨?_, ?_, ?_, ?_⟩
  · rcases hp with hp | hp <;>
      obtain ⟨m, p, q, ho, ra, hs, b⟩ := r <;>
      simp only [] at hm hp <;> subst hm <;> subst hp <;>
      simp [serveHTTP, routerServe, writeResponse, marshal,
        debug_path_not_pprof, debug_slash_path_not_pprof]
  · intro hobj hnull
    cases j with
    | null => exact absurd rfl hnull
    | obj fields => exact absurd rfl (hobj fields)
    | arr elems =>
        refine ⟨"json: cannot unmarshal array into Go value of type map[string]interface",
                by rw [hb]; rfl, by decide, ?_, ?_⟩ <;>
          simp [mainHandlerResult, hm, hb, decodeBody, List.lookup]
    | str s =>
        refine ⟨"json: cannot unmarshal string into Go value of type map[string]interface",
                by rw [hb]; rfl, by decide, ?_, ?_⟩ <;>
          simp [mainHandlerResult, hm, hb, decodeBody, List.lookup]
    | num n =>
        refine ⟨"json: cannot unmarshal number into Go value of type map[string]interface",
                by rw [hb]; rfl, by decide, ?_, ?_⟩ <;>
          simp [mainHandlerResult, hm, hb, decodeBody, List.lookup]
    | bool bv =>
        refine ⟨"json: cannot unmarshal bool into Go value of type map[string]interface",
                by rw [hb]; rfl, by decide, ?_, ?_⟩ <;>
          simp [mainHandlerResult, hm, hb, decodeBody, List.lookup]
  · intro hj
    subst hj
    constructor <;> simp [mainHandlerResult, hm, hb, decodeBody, List.lookup]
  · intro fields hj
    subst hj
    simp [mainHandlerResult, hm, hb, decodeBody, List.lookup]

/-- C10 witness: the amended theorem applied to a concrete `POST /debug`
whose body is the JSON array `[1]`. -/
theorem post_nonobject_body_decode_witness :
    ∃ e, decodeBody reqDebugPostArr.body = .error e ∧ e ≠ "" ∧
      (mainHandlerResult reqDebugPostArr).lookup "body_decoding_error"
          = some (.str e) ∧
      (mainHandlerResult reqDebugPostArr).lookup "body" = none :=
  (post_nonobject_body_decode env0 reqDebugPostArr (.arr [.num 1]) rfl
      (Or.inl rfl) rfl).2.1 (fun _ => nofun) nofun

/-- Trace shape for every non-OPTIONS request: CORS block, span opening,
log record, dispatch, the handler, span closing. -/
theorem serveHTTP_events_eq (env : Env) (r : Request)
    (hm : ¬ r.method = "OPTIONS") :
    (serveHTTP env r).events =
      (if headerGet r.headers "Origin" = "" then [] else [Event.corsHeaders]) ++
        ((if env.tracerPresent then
            [Event.spanStart r.path, Event.spanTag "host" r.host,
             Event.spanTag "method" r.method] else []) ++
          (Event.logRecord r.method r.path r.rawQuery ::
            Event.dispatch :: ((routerServe env r).2 ++
              (if env.tracerPresent then [Event.spanEnd] else [])))) := by
  by_cases ho : headerGet r.headers "Origin" = "" <;>
    by_cases htr : env.tracerPresent = true <;>
      simp [serveHTTP, hm, ho, htr]

/-- C1 counterexample: an `OPTIONS` request without an `Origin` header is
still answered 200 with an empty body, but carries none of the four CORS
headers — they are only set when the request has an `Origin`. -/
theorem options_no_origin_cex :
    (serveHTTP env0 reqOptionsNoOrigin).response.headers.lookup
        "Access-Control-Allow-Credentials" = none ∧
    (serveHTTP env0 reqOptionsNoOrigin).response.headers.lookup
        "Access-Control-Allow-Origin" = none ∧
    (serveHTTP env0 reqOptionsNoOrigin).response.explicitStatus = some 200 ∧
    (serveHTTP env0 reqOptionsNoOrigin).response.body = RespBody.empty :=
  ⟨rfl, rfl, rfl, rfl⟩

/-- C1 (amended): every `OPTIONS` request, regardless of path, is
answered with status 200, an empty body, no span, and without reaching
the dispatcher or any endpoint handler; the four CORS headers — with
exactly the fixed joined lists and the echoed `Origin` — are set
precisely when the request carries a non-empty `Origin` header. -/
theorem options_preflight_terminal (env : Env) (r : Request)
    (h : r.method = "OPTIONS") :
    (serveHTTP env r).response.explicitStatus = some 200 ∧
    (serveHTTP env r).response.body = RespBody.empty ∧
    (serveHTTP env r).events.all
        (fun e => !(e.isDispatch || e.isHandlerRun)) = true ∧
    (serveHTTP env r).span = none ∧
    (headerGet r.headers "Origin" = "" →
       (serveHTTP env r).response.headers = []) ∧
    (headerGet r.headers "Origin" ≠ "" →
       (serveHTTP env r).response.headers =
         [("Access-Control-Allow-Credentials", "true"),
          ("Access-Control-Allow-Origin", headerGet r.headers "Origin"),
          ("Access-Control-Allow-Methods",
           "OPTIONS, GET, PUT, PATCH, POST, DELETE"),
          ("Access-Control-Allow-Headers",
           "Accept, Content-Type, Content-Length, Cookie, Accept-Encoding, Authorization, X-CSRF-Token, X-Requested-With, X-Forwarded-For, CF-Connecting-IP, CF-Real-IP")]) := by
  by_cases ho : headerGet r.headers "Origin" = "" <;>
    simp [serveHTTP, h, ho, allowedMethods_joined, allowedHeaders_joined,
      Event.isDispatch, Event.isHandlerRun]

/-- C1 witness: the amended theorem applied to a concrete preflight that
does carry an `Origin` header. -/
theorem options_preflight_terminal_witness :
    (serveHTTP env0 reqOptionsOrigin).response.explicitStatus = some 200 ∧
    (serveHTTP env0 reqOptionsOrigin).response.headers =
      [("Access-Control-Allow-Credentials", "true"),
       ("Access-Control-Allow-Origin", "http://app.example"),
       ("Access-Control-Allow-Methods",
        "OPTIONS, GET, PUT, PATCH, POST, DELETE"),
       ("Access-Control-Allow-Headers",
        "Accept, Content-Type, Content-Length, Cookie, Accept-Encoding, Authorization, X-CSRF-Token, X-Requested-With, X-Forwarded-For, CF-Connecting-IP, CF-Real-IP")] :=
  ⟨(options_preflight_terminal env0 reqOptionsOrigin rfl).1,
   (options_preflight_terminal env0 reqOptionsOrigin rfl).2.2.2.2.2 (by decide)⟩

/-- C2 counterexample: with tracing enabled, the span opened for a
`GET /health` request is named `/health` — the leading slash of
`r.URL.Path` is not stripped, contrary to the claim. -/
theorem span_name_cex :
    (serveHTTP envTrace reqHealthGet).span.map Span.name = some "/health" ∧
    (serveHTTP envTrace reqHealthGet).span.map Span.name ≠ some "health" := by
  constructor
  · rfl
  · decide

/-- C2 (amended): for every non-OPTIONS request handled while tracing is
enabled, exactly one span is opened, its name is the request path taken
verbatim (leading slash included), and it carries the tags `host` (the
request's Host) and `method` (the request's HTTP method). -/
theorem span_attributes (env : Env) (r : Request)
    (htr : env.tracerPresent = true) (hm : ¬ r.method = "OPTIONS") :
    (serveHTTP env r).span
        = some { name := r.path, tags := [("host", r.host), ("method", r.method)] } ∧
    (serveHTTP env r).events.countP Event.isSpanStart = 1 := by
  constructor
  · simp [serveHTTP, hm, htr]
  · by_cases ho : headerGet r.headers "Origin" = "" <;>
      simp [serveHTTP, hm, htr, ho, Event.isSpanStart,
        routerServe_countP_eq_zero env r Event.isSpanStart (fun s => rfl)]

/-- C2 witness: the amended theorem applied with the tracer enabled to a
concrete `GET /health` request. -/
theorem span_attributes_witness :
    (serveHTTP envTrace reqHealthGet).span
        = some { name := "/health", tags := [("host", "localhost:8081"), ("method", "GET")] } ∧
    (serveHTTP envTrace reqHealthGet).events.countP Event.isSpanStart = 1 :=
  span_attributes envTrace reqHealthGet rfl (by decide)

/-- C7: whenever a span is opened for a request, the trace contains
exactly one span-end (and exactly one span-start) by the time the
request's handling ends, on every completion path. -/
theorem span_closed_exactly_once (env : Env) (r : Request)
    (h : (serveHTTP env r).span.isSome = true) :
    (serveHTTP env r).events.countP Event.isSpanEnd = 1 ∧
    (serveHTTP env r).events.countP Event.isSpanStart = 1 := by
  by_cases hm : r.method = "OPTIONS"
  · exfalso
    simp [serveHTTP, hm] at h
  · by_cases htr : env.tracerPresent = true
    · constructor <;>
        by_cases ho : headerGet r.headers "Origin" = "" <;>
          simp [serveHTTP, hm, htr, ho, Event.isSpanEnd, Event.isSpanStart,
            routerServe_countP_eq_zero env r Event.isSpanEnd (fun s => rfl),
            routerServe_countP_eq_zero env r Event.isSpanStart (fun s => rfl)]
    · exfalso
      simp [serveHTTP, hm, htr] at h

/-- C7 witness: the theorem applied with the tracer enabled to a
concrete `POST /debug` request whose body fails to decode — the span is
still closed exactly once. -/
theorem span_closed_exactly_once_witness :
    (serveHTTP envTrace reqDebugPostBad).events.countP Event.isSpanEnd = 1 :=
  (span_closed_exactly_once envTrace reqDebugPostBad (by decide)).1

/-- C8: in every request's trace, CORS header negotiation happens before
span creation, logging and dispatch; the log record is emitted before
the endpoint handler runs; the span closes only after the handler
returns; and an OPTIONS request short-circuits before span, log,
dispatch or any handler. -/
theorem pipeline_event_order (env : Env) (r : Request) :
    allBefore Event.isCors Event.isSpanStart (serveHTTP env r).events = true ∧
    allBefore Event.isCors Event.isLog (serveHTTP env r).events = true ∧
    allBefore Event.isCors Event.isDispatch (serveHTTP env r).events = true ∧
    allBefore Event.isLog Event.isHandlerRun (serveHTTP env r).events = true ∧
    allBefore Event.isHandlerRun Event.isSpanEnd (serveHTTP env r).events = true ∧
    (r.method = "OPTIONS" →
       (serveHTTP env r).events.all
         (fun e => !(e.isSpanStart || e.isLog || e.isDispatch || e.isHandlerRun)) = true) := by
  by_cases hm : r.method = "OPTIONS"
  · by_cases ho : headerGet r.headers "Origin" = "" <;>
      simp [serveHTTP, hm, ho, allBefore, List.dropWhile, Event.isCors,
        Event.isSpanStart, Event.isLog, Event.isDispatch, Event.isHandlerRun,
        Event.isSpanEnd]
  · rw [serveHTTP_events_eq env r hm]
    by_cases ho : headerGet r.headers "Origin" = "" <;>
      by_cases htr : env.tracerPresent = true <;>
        simp only [ho, htr, if_true, if_false, ite_true, ite_false,
          List.nil_append, List.append_assoc, eq_self_iff_true,
          not_true, not_false_iff] <;>
      unfold routerServe <;>
      (repeat' split) <;>
      exact ⟨rfl, rfl, rfl, rfl, rfl, fun hc => absurd hc hm⟩

/-- C8 witness: the ordering theorem applied to a concrete traced
`GET /debug` request. -/
theorem pipeline_event_order_witness :
    allBefore Event.isLog Event.isHandlerRun
        (serveHTTP envTrace reqDebugGetMulti).events = true ∧
    allBefore Event.isHandlerRun Event.isSpanEnd
        (serveHTTP envTrace reqDebugGetMulti).events = true :=
  ⟨(pipeline_event_order envTrace reqDebugGetMulti).2.2.2.1,
   (pipeline_event_order envTrace reqDebugGetMulti).2.2.2.2.1⟩

end Busybox
